import Mathlib

/-!
# The stringy authorizer of tacquito

A shallow embedding of `cmds/server/config/authorizers/stringy/stringy.go`:
the policy reduction `ReduceAll`, the two constructors `New` and
`Authorizer.New`, and the dispatch cascade `Authorizer.Handle`.

Conventions of the embedding.

* Go slices are Lean lists; `append(xs, ys...)` is `xs ++ ys`.  Sharing of
  backing arrays between slices is outside the model.
* A Go function that writes through a pointer is a function from the value
  stored behind the pointer before the call to the value stored there after it.
* The effects of `Handle` (metric increments, log lines, matcher constructor
  calls, delegations and replies) are recorded, in program order, in the list
  of events it returns.
* The logger embedded in the authorizer is a usable implementation of
  `loggerProvider`; its `Debugf` is recorded as an event.
-/

namespace Stringy

/-! ## Data model -/

/-- Modelled from the spec: the declaration of `config.Group` is not part of
this source file.  A group is a named bundle of service rules and command
rules; the rule types `S` and `C` are left abstract. -/
structure Group (S C : Type) where
  Name : String
  Services : List S
  Commands : List C
deriving DecidableEq, Repr

/-- Modelled from the spec: the declaration of `config.User` is not part of
this source file.  A user has a name, an ordered list of group memberships
and directly assigned service and command rules (the fields that
`stringy.go` reads or writes). -/
structure User (S C : Type) where
  Name : String
  Groups : List (Group S C)
  Services : List S
  Commands : List C
deriving DecidableEq, Repr

/-- The Go zero value of `config.User`. -/
def User.zero {S C : Type} : User S C :=
  { Name := "", Groups := [], Services := [], Commands := [] }

/-- The struct `Authorizer`: the embedded logger, the user and the flag that
selects the second generation of the command matcher. -/
structure Authorizer (L S C : Type) where
  loggerProvider : L
  user : User S C
  enableCmdV2 : Bool

/-- The Go type `Option`, a function that updates the authorizer it is
handed by pointer. -/
abbrev Option' (L S C : Type) := Authorizer L S C → Authorizer L S C

/-- The functional option `EnableCmdV2`: `a.enableCmdV2 = enableV2`. -/
def EnableCmdV2 {L S C : Type} (enableV2 : Bool) : Option' L S C :=
  fun a => { a with enableCmdV2 := enableV2 }

/-- The package level `New`: start from `&Authorizer{loggerProvider: l}` and
apply the options in order. -/
def New {L S C : Type} (l : L) (opts : List (Option' L S C)) : Authorizer L S C :=
  opts.foldl (fun a opt => opt a)
    { loggerProvider := l, user := User.zero, enableCmdV2 := false }

/-- One iteration of the loop body of `ReduceAll` for the group `g`. -/
def reduceStep {S C : Type} (u : User S C) (g : Group S C) : User S C :=
  let u := { u with Services := u.Services ++ g.Services }
  { u with Commands := u.Commands ++ g.Commands }

/-- The method `ReduceAll`: the value behind the pointer `u` after the call.
The range expression `u.Groups` is evaluated once, before the first
iteration. -/
def Authorizer.ReduceAll {L S C : Type} (_a : Authorizer L S C) (u : User S C) :
    User S C :=
  u.Groups.foldl reduceStep u

/-- The method `Authorizer.New`: `user` is a by-value parameter, `ReduceAll`
is run on that local copy, and a fresh authorizer holding it is returned
together with a nil error. -/
def Authorizer.New {L S C : Type} (a : Authorizer L S C) (user : User S C) :
    Authorizer L S C × Option String :=
  let user := a.ReduceAll user
  ({ loggerProvider := a.loggerProvider, user := user, enableCmdV2 := a.enableCmdV2 }, none)

/-! ## The dispatch cascade -/

/-- Modelled from the spec: the status constants of the `tq` package are not
part of this source file.  The authorization statuses of the protocol:
`AuthorStatusPassAdd` and `AuthorStatusPassRepl` are the two forms of the
verdict Permit, `AuthorStatusFail` is the verdict Deny and
`AuthorStatusError` the verdict Error. -/
inductive AuthorStatus where
  | AuthorStatusPassAdd
  | AuthorStatusPassRepl
  | AuthorStatusFail
  | AuthorStatusError
  | AuthorStatusFollow
deriving DecidableEq, Repr

/-- Whether a status is a Permit verdict. -/
def AuthorStatus.isPermit : AuthorStatus → Bool
  | .AuthorStatusPassAdd => true
  | .AuthorStatusPassRepl => true
  | _ => false

/-- The reply built by `tq.NewAuthorReply(tq.SetAuthorReplyStatus(s),
tq.SetAuthorReplyServerMsg(m))`, represented by the two values it is given. -/
structure AuthorReply where
  Status : AuthorStatus
  ServerMsg : String
deriving DecidableEq, Repr

/-- The fields of `tq.Request` that `Handle` reads: the context and the raw
body.  `X` is the type of contexts, `B` the type of raw bodies. -/
structure Request (X B : Type) where
  Context : X
  Body : B

/-- The interface `tq.Handler`: a value with a `Handle` method.  `Out` is
the type of what a matcher does with the response it is handed. -/
structure Handler (X B Out : Type) where
  Handle : Request X B → Out

/-- The functions that `Handle` calls and that live outside this source
file: the decoder `tq.Unmarshal` (`none` for a non-nil error) and the three
matcher constructors (`none` for a nil result).  `A` is the type of decoded
`tq.AuthorRequest` bodies. -/
structure Deps (L X B A S C Out : Type) where
  Unmarshal : B → Option A
  NewCommandBasedAuthorizer : X → L → A → User S C → Option (Handler X B Out)
  NewCommandBasedAuthorizerV2 : X → L → A → User S C → Option (Handler X B Out)
  NewSessionBasedAuthorizer : X → L → A → User S C → Option (Handler X B Out)

/-- The three matchers `Handle` can construct. -/
inductive Matcher where
  | CommandBasedAuthorizer
  | CommandBasedAuthorizerV2
  | SessionBasedAuthorizer
deriving DecidableEq, Repr

/-- The three counters `Handle` increments. -/
inductive Counter where
  | stringyHandleUnexpectedPacket
  | stringyHandleAuthorizeError
  | stringyHandleAuthorizeFail
deriving DecidableEq, Repr

/-- One observable step of `Handle`. -/
inductive Event (Out : Type) where
  /-- The counter was incremented with `Inc()`. -/
  | inc (c : Counter)
  /-- The constructor of the matcher was called. -/
  | construct (m : Matcher)
  /-- The call `a.Debugf(request.Context, format, arg)`. -/
  | debugf (format : String) (arg : String)
  /-- The call `authorizer.Handle(response, request)` on the matcher that
  was constructed, with what that call did. -/
  | handle (m : Matcher) (out : Out)
  /-- The call `response.Reply(r)` made by `Handle` itself. -/
  | reply (r : AuthorReply)
deriving DecidableEq, Repr

/-- The method `Authorizer.Handle`: the events it performs, in order. -/
def Authorizer.Handle {L X B A S C Out : Type} (a : Authorizer L S C)
    (d : Deps L X B A S C Out) (request : Request X B) : List (Event Out) :=
  match d.Unmarshal request.Body with
  | none =>
    [ .inc .stringyHandleUnexpectedPacket,
      .inc .stringyHandleAuthorizeError,
      .reply { Status := .AuthorStatusError,
               ServerMsg := "unable to decode AuthorRequest packet" } ]
  | some body =>
    -- the statements after the if/else on `enableCmdV2`
    let session : List (Event Out) :=
      .construct .SessionBasedAuthorizer ::
        match d.NewSessionBasedAuthorizer request.Context a.loggerProvider body a.user with
        | some authorizer =>
          [ .debugf "detected user [%v] using session based authorization" a.user.Name,
            .handle .SessionBasedAuthorizer (authorizer.Handle request) ]
        | none =>
          [ .debugf "failed to authorize the user: [%v]" a.user.Name,
            .inc .stringyHandleAuthorizeFail,
            .reply { Status := .AuthorStatusFail, ServerMsg := "not authorized" } ]
    if a.enableCmdV2 then
      .construct .CommandBasedAuthorizerV2 ::
        match d.NewCommandBasedAuthorizerV2 request.Context a.loggerProvider body a.user with
        | some authorizer =>
          [ .debugf "detected user [%v] using command based authorization" a.user.Name,
            .handle .CommandBasedAuthorizerV2 (authorizer.Handle request) ]
        | none => session
    else
      .construct .CommandBasedAuthorizer ::
        match d.NewCommandBasedAuthorizer request.Context a.loggerProvider body a.user with
        | some authorizer =>
          [ .debugf "detected user [%v] using command based authorization" a.user.Name,
            .handle .CommandBasedAuthorizer (authorizer.Handle request) ]
        | none => session

/-! ## Reading a run of `Handle` -/

/-- The matchers whose constructor was called, in order. -/
def constructed {Out : Type} : List (Event Out) → List Matcher
  | [] => []
  | .construct m :: t => m :: constructed t
  | _ :: t => constructed t

/-- The matchers `Handle` delegated to, each with what it did. -/
def delegated {Out : Type} : List (Event Out) → List (Matcher × Out)
  | [] => []
  | .handle m out :: t => (m, out) :: delegated t
  | _ :: t => delegated t

/-- The replies `Handle` issued itself. -/
def replied {Out : Type} : List (Event Out) → List AuthorReply
  | [] => []
  | .reply r :: t => r :: replied t
  | _ :: t => replied t

/-- All replies put on the response during a run, those of a delegated
matcher included, when `replies` tells which replies a matcher sent. -/
def repliesSent {Out : Type} (replies : Out → List AuthorReply) :
    List (Event Out) → List AuthorReply
  | [] => []
  | .reply r :: t => r :: repliesSent replies t
  | .handle _ out :: t => replies out ++ repliesSent replies t
  | _ :: t => repliesSent replies t

/-- Whether a matcher is one of the two command matcher generations. -/
def Matcher.isCommand : Matcher → Bool
  | .CommandBasedAuthorizer => true
  | .CommandBasedAuthorizerV2 => true
  | .SessionBasedAuthorizer => false

/-- The command matcher generation the flag of the authorizer selects. -/
def Authorizer.commandMatcher {L S C : Type} (a : Authorizer L S C) : Matcher :=
  if a.enableCmdV2 then .CommandBasedAuthorizerV2 else .CommandBasedAuthorizer

/-- The constructor of the matcher `m`. -/
def Deps.construct {L X B A S C Out : Type} (d : Deps L X B A S C Out) :
    Matcher → X → L → A → User S C → Option (Handler X B Out)
  | .CommandBasedAuthorizer => d.NewCommandBasedAuthorizer
  | .CommandBasedAuthorizerV2 => d.NewCommandBasedAuthorizerV2
  | .SessionBasedAuthorizer => d.NewSessionBasedAuthorizer

/-- The four sources of a final verdict. -/
inductive Source where
  | decodeError
  | commandMatcher
  | sessionMatcher
  | notAuthorized
deriving DecidableEq, Repr

/-- Whether the source `s` produced a verdict in the run `t`. -/
def occurs {Out : Type} (t : List (Event Out)) : Source → Bool
  | .decodeError =>
    decide ({ Status := .AuthorStatusError,
              ServerMsg := "unable to decode AuthorRequest packet" } ∈ replied t)
  | .commandMatcher => (delegated t).any (fun p => p.1.isCommand)
  | .sessionMatcher => (delegated t).any (fun p => !p.1.isCommand)
  | .notAuthorized =>
    decide ({ Status := .AuthorStatusFail, ServerMsg := "not authorized" } ∈ replied t)

/-- The sources that produced a verdict in the run `t`. -/
def sources {Out : Type} (t : List (Event Out)) : List Source :=
  [Source.decodeError, .commandMatcher, .sessionMatcher, .notAuthorized].filter (occurs t)

/-! ## A concrete deployment, used to run the definitions -/

/-- A matcher that sends the one reply `r`. -/
def replyWith (r : AuthorReply) : Handler Unit (List Nat) (List AuthorReply) :=
  { Handle := fun _ => [r] }

/-- A toy set of collaborators.  A body decodes when it is a single byte
`k`; both command matchers claim `k = 0`, the first generation permits and
the second denies; the session matcher claims `k ≤ 1` and permits. -/
def demoDeps : Deps Unit Unit (List Nat) Nat String String (List AuthorReply) where
  Unmarshal := fun b => match b with
    | [k] => some k
    | _ => none
  NewCommandBasedAuthorizer := fun _ _ k _ =>
    if k = 0 then some (replyWith ⟨.AuthorStatusPassAdd, "v1"⟩) else none
  NewCommandBasedAuthorizerV2 := fun _ _ k _ =>
    if k = 0 then some (replyWith ⟨.AuthorStatusFail, "v2"⟩) else none
  NewSessionBasedAuthorizer := fun _ _ k _ =>
    if k ≤ 1 then some (replyWith ⟨.AuthorStatusPassAdd, "session"⟩) else none

/-- The group of the end-to-end scenario of the specification. -/
def netops : Group String String :=
  { Name := "netops", Services := ["shell"], Commands := ["show", "reload"] }

/-- A user with one direct command rule who belongs to `netops`. -/
def alice : User String String :=
  { Name := "alice", Groups := [netops], Services := [], Commands := ["configure"] }

/-- A user without groups. -/
def bob : User String String :=
  { Name := "bob", Groups := [], Services := ["ppp"], Commands := ["ping"] }

/-- An authorizer with the second generation switched on or off. -/
def demoAuthorizer (v2 : Bool) : Authorizer Unit String String :=
  ((New () [EnableCmdV2 v2]).New alice).1

/-! ## Auxiliary facts on the reduction loop -/

section Reduction

variable {S C : Type}

lemma foldl_reduceStep_Services (gs : List (Group S C)) (u : User S C) :
    (gs.foldl reduceStep u).Services = u.Services ++ (gs.map Group.Services).flatten := by
  induction gs generalizing u with
  | nil => simp
  | cons g gs ih => simp [List.foldl_cons, ih, reduceStep, List.append_assoc]

lemma foldl_reduceStep_Commands (gs : List (Group S C)) (u : User S C) :
    (gs.foldl reduceStep u).Commands = u.Commands ++ (gs.map Group.Commands).flatten := by
  induction gs generalizing u with
  | nil => simp
  | cons g gs ih => simp [List.foldl_cons, ih, reduceStep, List.append_assoc]

end Reduction

/-! ## Auxiliary facts on the cascade: the run of `Handle` in each case -/

section Runs

variable {L X B A S C Out : Type}

lemma Handle_run_decode_none (a : Authorizer L S C) (d : Deps L X B A S C Out)
    (request : Request X B) (hdec : d.Unmarshal request.Body = none) :
    a.Handle d request =
      [ .inc .stringyHandleUnexpectedPacket,
        .inc .stringyHandleAuthorizeError,
        .reply ⟨.AuthorStatusError, "unable to decode AuthorRequest packet"⟩ ] := by
  simp [Authorizer.Handle, hdec]

lemma Handle_run_command (a : Authorizer L S C) (d : Deps L X B A S C Out)
    (request : Request X B) (body : A) (authorizer : Handler X B Out)
    (hdec : d.Unmarshal request.Body = some body)
    (hcmd : d.construct a.commandMatcher request.Context a.loggerProvider body a.user
      = some authorizer) :
    a.Handle d request =
      [ .construct a.commandMatcher,
        .debugf "detected user [%v] using command based authorization" a.user.Name,
        .handle a.commandMatcher (authorizer.Handle request) ] := by
  cases hflag : a.enableCmdV2 <;>
    simp [Authorizer.commandMatcher, Deps.construct, hflag] at hcmd <;>
    simp [Authorizer.Handle, Authorizer.commandMatcher, hdec, hflag, hcmd]

lemma Handle_run_session (a : Authorizer L S C) (d : Deps L X B A S C Out)
    (request : Request X B) (body : A) (authorizer : Handler X B Out)
    (hdec : d.Unmarshal request.Body = some body)
    (hcmd : d.construct a.commandMatcher request.Context a.loggerProvider body a.user = none)
    (hsess : d.NewSessionBasedAuthorizer request.Context a.loggerProvider body a.user
      = some authorizer) :
    a.Handle d request =
      [ .construct a.commandMatcher,
        .construct .SessionBasedAuthorizer,
        .debugf "detected user [%v] using session based authorization" a.user.Name,
        .handle .SessionBasedAuthorizer (authorizer.Handle request) ] := by
  cases hflag : a.enableCmdV2 <;>
    simp [Authorizer.commandMatcher, Deps.construct, hflag] at hcmd <;>
    simp [Authorizer.Handle, Authorizer.commandMatcher, hdec, hflag, hcmd, hsess]

lemma Handle_run_unclaimed (a : Authorizer L S C) (d : Deps L X B A S C Out)
    (request : Request X B) (body : A)
    (hdec : d.Unmarshal request.Body = some body)
    (hcmd : d.construct a.commandMatcher request.Context a.loggerProvider body a.user = none)
    (hsess : d.NewSessionBasedAuthorizer request.Context a.loggerProvider body a.user = none) :
    a.Handle d request =
      [ .construct a.commandMatcher,
        .construct .SessionBasedAuthorizer,
        .debugf "failed to authorize the user: [%v]" a.user.Name,
        .inc .stringyHandleAuthorizeFail,
        .reply ⟨.AuthorStatusFail, "not authorized"⟩ ] := by
  cases hflag : a.enableCmdV2 <;>
    simp [Authorizer.commandMatcher, Deps.construct, hflag] at hcmd <;>
    simp [Authorizer.Handle, Authorizer.commandMatcher, hdec, hflag, hcmd, hsess]

lemma commandMatcher_isCommand (a : Authorizer L S C) : a.commandMatcher.isCommand = true := by
  cases hflag : a.enableCmdV2 <;> simp [Authorizer.commandMatcher, hflag, Matcher.isCommand]

lemma commandMatcher_ne_session (a : Authorizer L S C) :
    a.commandMatcher ≠ Matcher.SessionBasedAuthorizer := by
  cases hflag : a.enableCmdV2 <;> simp [Authorizer.commandMatcher, hflag]

/-- The four shapes a run of `Handle` can take. -/
lemma Handle_run_cases (a : Authorizer L S C) (d : Deps L X B A S C Out)
    (request : Request X B) :
    a.Handle d request =
        [ .inc .stringyHandleUnexpectedPacket,
          .inc .stringyHandleAuthorizeError,
          .reply ⟨.AuthorStatusError, "unable to decode AuthorRequest packet"⟩ ]
    ∨ (∃ out, a.Handle d request =
        [ .construct a.commandMatcher,
          .debugf "detected user [%v] using command based authorization" a.user.Name,
          .handle a.commandMatcher out ])
    ∨ (∃ out, a.Handle d request =
        [ .construct a.commandMatcher,
          .construct .SessionBasedAuthorizer,
          .debugf "detected user [%v] using session based authorization" a.user.Name,
          .handle .SessionBasedAuthorizer out ])
    ∨ a.Handle d request =
        [ .construct a.commandMatcher,
          .construct .SessionBasedAuthorizer,
          .debugf "failed to authorize the user: [%v]" a.user.Name,
          .inc .stringyHandleAuthorizeFail,
          .reply ⟨.AuthorStatusFail, "not authorized"⟩ ] := by
  cases hdec : d.Unmarshal request.Body with
  | none => exact Or.inl (Handle_run_decode_none a d request hdec)
  | some body =>
    cases hcmd : d.construct a.commandMatcher request.Context a.loggerProvider body a.user with
    | some authorizer =>
      exact Or.inr (Or.inl ⟨_, Handle_run_command a d request body authorizer hdec hcmd⟩)
    | none =>
      cases hsess : d.NewSessionBasedAuthorizer request.Context a.loggerProvider body a.user with
      | some authorizer =>
        exact Or.inr (Or.inr (Or.inl
          ⟨_, Handle_run_session a d request body authorizer hdec hcmd hsess⟩))
      | none =>
        exact Or.inr (Or.inr (Or.inr (Handle_run_unclaimed a d request body hdec hcmd hsess)))

lemma constructed_isCommand (a : Authorizer L S C) (d : Deps L X B A S C Out)
    (request : Request X B) (m : Matcher) (hm : m ∈ constructed (a.Handle d request))
    (hc : m.isCommand = true) : m = a.commandMatcher := by
  rcases Handle_run_cases a d request with h | ⟨out, h⟩ | ⟨out, h⟩ | h <;>
    rw [h] at hm <;> simp [constructed] at hm
  · exact hm
  · rcases hm with hm | hm
    · exact hm
    · rw [hm] at hc; simp [Matcher.isCommand] at hc
  · rcases hm with hm | hm
    · exact hm
    · rw [hm] at hc; simp [Matcher.isCommand] at hc

end Runs

/-! ## Policy reduction -/

section ReductionTheorems

variable {L S C : Type}

/-- C1: after `ReduceAll` the services of the user are its own services
followed by the services of its groups in membership order, and likewise for
the commands; a user without groups keeps both lists. -/
theorem ReduceAll_concat (a : Authorizer L S C) (u : User S C) :
    (a.ReduceAll u).Services = u.Services ++ (u.Groups.map Group.Services).flatten
    ∧ (a.ReduceAll u).Commands = u.Commands ++ (u.Groups.map Group.Commands).flatten
    ∧ (u.Groups = [] →
        (a.ReduceAll u).Services = u.Services ∧ (a.ReduceAll u).Commands = u.Commands) := by
  refine ⟨foldl_reduceStep_Services _ _, foldl_reduceStep_Commands _ _, ?_⟩
  intro h
  simp [Authorizer.ReduceAll, h]

/-- A run of `ReduceAll_concat` on a user without groups. -/
theorem ReduceAll_concat_witness :
    bob.Groups = []
    ∧ ((demoAuthorizer false).ReduceAll bob).Services = ["ppp"]
    ∧ ((demoAuthorizer false).ReduceAll bob).Commands = ["ping"] :=
  ⟨rfl, (ReduceAll_concat (demoAuthorizer false) bob).2.2 rfl⟩

/-- C2: in the lists `ReduceAll` produces the direct rules of the user come
first: the original lists are prefixes of the reduced ones, the rule at a
position of the original list stays at that position, the rules inherited
from the groups follow, and so every direct rule has a smaller index than
every inherited one. -/
theorem ReduceAll_user_rules_first (a : Authorizer L S C) (u : User S C) :
    u.Commands <+: (a.ReduceAll u).Commands
    ∧ u.Services <+: (a.ReduceAll u).Services
    ∧ (∀ i k, i < u.Commands.length → k < ((u.Groups.map Group.Commands).flatten).length →
        (a.ReduceAll u).Commands[i]? = u.Commands[i]?
        ∧ (a.ReduceAll u).Commands[u.Commands.length + k]?
            = ((u.Groups.map Group.Commands).flatten)[k]?
        ∧ i < u.Commands.length + k)
    ∧ (∀ i k, i < u.Services.length → k < ((u.Groups.map Group.Services).flatten).length →
        (a.ReduceAll u).Services[i]? = u.Services[i]?
        ∧ (a.ReduceAll u).Services[u.Services.length + k]?
            = ((u.Groups.map Group.Services).flatten)[k]?
        ∧ i < u.Services.length + k) := by
  have hS : (a.ReduceAll u).Services = u.Services ++ (u.Groups.map Group.Services).flatten :=
    foldl_reduceStep_Services _ _
  have hC : (a.ReduceAll u).Commands = u.Commands ++ (u.Groups.map Group.Commands).flatten :=
    foldl_reduceStep_Commands _ _
  refine ⟨?_, ?_, ?_, ?_⟩
  · rw [hC]; exact List.prefix_append _ _
  · rw [hS]; exact List.prefix_append _ _
  · intro i k hi _
    rw [hC]
    refine ⟨List.getElem?_append_left hi, ?_, by omega⟩
    rw [List.getElem?_append_right (by omega)]
    simp
  · intro i k hi _
    rw [hS]
    refine ⟨List.getElem?_append_left hi, ?_, by omega⟩
    rw [List.getElem?_append_right (by omega)]
    simp

/-- A run of `ReduceAll_user_rules_first`: the direct rule of `alice` sits at
index 0, the second rule of her group at index 2. -/
theorem ReduceAll_user_rules_first_witness :
    ((demoAuthorizer true).ReduceAll alice).Commands[0]? = some "configure"
    ∧ ((demoAuthorizer true).ReduceAll alice).Commands[1 + 1]? = some "reload"
    ∧ 0 < 1 + 1 :=
  (ReduceAll_user_rules_first (demoAuthorizer true) alice).2.2.1 0 1 (by decide) (by decide)

/-- C10: `New` without options selects generation 1, `New` with
`EnableCmdV2 b` stores `b`, and the handler `Authorizer.New` returns has the
flag of its parent, holds the reduced user, comes with a nil error and
consults no command matcher generation but the one its parent selects. -/
theorem New_generation (l : L) (b : Bool) (a : Authorizer L S C) (user : User S C) :
    (New l [] : Authorizer L S C).enableCmdV2 = false
    ∧ (New l [EnableCmdV2 b] : Authorizer L S C).enableCmdV2 = b
    ∧ (a.New user).1.enableCmdV2 = a.enableCmdV2
    ∧ (a.New user).1.user = a.ReduceAll user
    ∧ (a.New user).2 = none
    ∧ (∀ (X B A Out : Type) (d : Deps L X B A S C Out) (request : Request X B),
        ∀ m ∈ constructed ((a.New user).1.Handle d request),
          m.isCommand = true → m = a.commandMatcher) :=
  ⟨rfl, rfl, rfl, rfl, rfl,
    fun _ _ _ _ d request m hm hc => constructed_isCommand (a.New user).1 d request m hm hc⟩

/-- A run of `New_generation`: built with `EnableCmdV2 true`, the handler
for `alice` consults the second generation. -/
theorem New_generation_witness :
    constructed (((New () [EnableCmdV2 true]).New alice).1.Handle demoDeps ⟨(), [0]⟩)
        = [.CommandBasedAuthorizerV2]
    ∧ Matcher.CommandBasedAuthorizerV2
        = (New () [EnableCmdV2 true] : Authorizer Unit String String).commandMatcher :=
  ⟨by decide,
    (New_generation () true (New () [EnableCmdV2 true]) alice).2.2.2.2.2
      Unit (List Nat) Nat (List AuthorReply) demoDeps ⟨(), [0]⟩ .CommandBasedAuthorizerV2
      (by decide) rfl⟩

end ReductionTheorems

/-! ## The cascade -/

section CascadeTheorems

variable {L X B A S C Out : Type}

/-- C3: when the body of the request does not decode, `Handle` bumps the two
error counters and replies with status Error and the message "unable to
decode AuthorRequest packet", whatever the user and the flag; no matcher is
constructed and none is delegated to. -/
theorem Handle_decode_failure (a : Authorizer L S C) (d : Deps L X B A S C Out)
    (request : Request X B) (hdec : d.Unmarshal request.Body = none) :
    a.Handle d request =
      [ .inc .stringyHandleUnexpectedPacket,
        .inc .stringyHandleAuthorizeError,
        .reply ⟨.AuthorStatusError, "unable to decode AuthorRequest packet"⟩ ]
    ∧ replied (a.Handle d request)
        = [⟨.AuthorStatusError, "unable to decode AuthorRequest packet"⟩]
    ∧ constructed (a.Handle d request) = []
    ∧ delegated (a.Handle d request) = []
    ∧ ∀ replies : Out → List AuthorReply, repliesSent replies (a.Handle d request)
        = [⟨.AuthorStatusError, "unable to decode AuthorRequest packet"⟩] := by
  rw [Handle_run_decode_none a d request hdec]
  simp [replied, constructed, delegated, repliesSent]

/-- A run of `Handle_decode_failure` on a body of two bytes. -/
theorem Handle_decode_failure_witness :
    demoDeps.Unmarshal [7, 7] = none
    ∧ replied ((demoAuthorizer true).Handle demoDeps ⟨(), [7, 7]⟩)
        = [⟨.AuthorStatusError, "unable to decode AuthorRequest packet"⟩]
    ∧ constructed ((demoAuthorizer true).Handle demoDeps ⟨(), [7, 7]⟩) = [] :=
  ⟨rfl, (Handle_decode_failure (demoAuthorizer true) demoDeps ⟨(), [7, 7]⟩ rfl).2.1,
    (Handle_decode_failure (demoAuthorizer true) demoDeps ⟨(), [7, 7]⟩ rfl).2.2.1⟩

/-- C4: when the body decodes, the configured command matcher does not
claim the request and the session matcher does not either, `Handle`
delegates to nobody and its one reply has status Fail and the message "not
authorized"; that status is neither a Permit nor Error. -/
theorem Handle_not_authorized (a : Authorizer L S C) (d : Deps L X B A S C Out)
    (request : Request X B) (body : A)
    (hdec : d.Unmarshal request.Body = some body)
    (hcmd : d.construct a.commandMatcher request.Context a.loggerProvider body a.user = none)
    (hsess : d.NewSessionBasedAuthorizer request.Context a.loggerProvider body a.user = none) :
    replied (a.Handle d request) = [⟨.AuthorStatusFail, "not authorized"⟩]
    ∧ delegated (a.Handle d request) = []
    ∧ (∀ replies : Out → List AuthorReply,
        repliesSent replies (a.Handle d request) = [⟨.AuthorStatusFail, "not authorized"⟩])
    ∧ (∀ replies : Out → List AuthorReply, ∀ r ∈ repliesSent replies (a.Handle d request),
        r.Status = .AuthorStatusFail ∧ r.Status.isPermit = false
          ∧ r.Status ≠ .AuthorStatusError) := by
  rw [Handle_run_unclaimed a d request body hdec hcmd hsess]
  simp [replied, delegated, repliesSent, AuthorStatus.isPermit]

/-- A run of `Handle_not_authorized`: the byte 2 decodes and no matcher
claims it. -/
theorem Handle_not_authorized_witness :
    demoDeps.Unmarshal [2] = some 2
    ∧ replied ((demoAuthorizer false).Handle demoDeps ⟨(), [2]⟩)
        = [⟨.AuthorStatusFail, "not authorized"⟩]
    ∧ delegated ((demoAuthorizer false).Handle demoDeps ⟨(), [2]⟩) = [] :=
  ⟨rfl, (Handle_not_authorized (demoAuthorizer false) demoDeps ⟨(), [2]⟩ 2 rfl rfl rfl).1,
    (Handle_not_authorized (demoAuthorizer false) demoDeps ⟨(), [2]⟩ 2 rfl rfl rfl).2.1⟩

/-- C5: when the body decodes and the configured command matcher claims the
request, `Handle` delegates to that matcher and to nobody else, issues no
reply of its own, so that the replies sent are those of the matcher, and
does not construct the session matcher, whatever the session matcher would
have answered. -/
theorem Handle_command_claims (a : Authorizer L S C) (d : Deps L X B A S C Out)
    (request : Request X B) (body : A) (authorizer : Handler X B Out)
    (hdec : d.Unmarshal request.Body = some body)
    (hcmd : d.construct a.commandMatcher request.Context a.loggerProvider body a.user
      = some authorizer) :
    delegated (a.Handle d request) = [(a.commandMatcher, authorizer.Handle request)]
    ∧ replied (a.Handle d request) = []
    ∧ (∀ replies : Out → List AuthorReply,
        repliesSent replies (a.Handle d request) = replies (authorizer.Handle request))
    ∧ constructed (a.Handle d request) = [a.commandMatcher]
    ∧ Matcher.SessionBasedAuthorizer ∉ constructed (a.Handle d request) := by
  rw [Handle_run_command a d request body authorizer hdec hcmd]
  have hne := commandMatcher_ne_session a
  simp [replied, delegated, repliesSent, constructed]
  exact fun h => hne h.symm

/-- A run of `Handle_command_claims`: the byte 0 is claimed by the second
generation, which denies, although the session matcher would permit. -/
theorem Handle_command_claims_witness :
    (demoDeps.NewSessionBasedAuthorizer () () 0 (demoAuthorizer true).user).isSome = true
    ∧ delegated ((demoAuthorizer true).Handle demoDeps ⟨(), [0]⟩)
        = [(.CommandBasedAuthorizerV2, [⟨.AuthorStatusFail, "v2"⟩])]
    ∧ replied ((demoAuthorizer true).Handle demoDeps ⟨(), [0]⟩) = [] :=
  ⟨rfl,
    (Handle_command_claims (demoAuthorizer true) demoDeps ⟨(), [0]⟩ 0
      (replyWith ⟨.AuthorStatusFail, "v2"⟩) rfl rfl).1,
    (Handle_command_claims (demoAuthorizer true) demoDeps ⟨(), [0]⟩ 0
      (replyWith ⟨.AuthorStatusFail, "v2"⟩) rfl rfl).2.1⟩

/-- C6: when the body decodes, the configured command matcher does not
claim the request and the session matcher claims it, `Handle` delegates to
the session matcher and to nobody else and issues no reply of its own (in
particular not the "not authorized" one), so that the replies sent are those
of the session matcher. -/
theorem Handle_session_claims (a : Authorizer L S C) (d : Deps L X B A S C Out)
    (request : Request X B) (body : A) (authorizer : Handler X B Out)
    (hdec : d.Unmarshal request.Body = some body)
    (hcmd : d.construct a.commandMatcher request.Context a.loggerProvider body a.user = none)
    (hsess : d.NewSessionBasedAuthorizer request.Context a.loggerProvider body a.user
      = some authorizer) :
    delegated (a.Handle d request)
        = [(Matcher.SessionBasedAuthorizer, authorizer.Handle request)]
    ∧ replied (a.Handle d request) = []
    ∧ (∀ replies : Out → List AuthorReply,
        repliesSent replies (a.Handle d request) = replies (authorizer.Handle request))
    ∧ Event.reply ⟨.AuthorStatusFail, "not authorized"⟩ ∉ a.Handle d request := by
  rw [Handle_run_session a d request body authorizer hdec hcmd hsess]
  simp [replied, delegated, repliesSent]

/-- A run of `Handle_session_claims`: the byte 1 is declined by the first
generation and claimed by the session matcher. -/
theorem Handle_session_claims_witness :
    delegated ((demoAuthorizer false).Handle demoDeps ⟨(), [1]⟩)
        = [(.SessionBasedAuthorizer, [⟨.AuthorStatusPassAdd, "session"⟩])]
    ∧ replied ((demoAuthorizer false).Handle demoDeps ⟨(), [1]⟩) = [] :=
  ⟨(Handle_session_claims (demoAuthorizer false) demoDeps ⟨(), [1]⟩ 1
      (replyWith ⟨.AuthorStatusPassAdd, "session"⟩) rfl rfl rfl).1,
    (Handle_session_claims (demoAuthorizer false) demoDeps ⟨(), [1]⟩ 1
      (replyWith ⟨.AuthorStatusPassAdd, "session"⟩) rfl rfl rfl).2.1⟩

/-- C7, as stated, fails: for a request whose body does not decode no
command matcher generation is consulted, also when the flag is set. -/
theorem Handle_generation_undecodable :
    (demoAuthorizer true).enableCmdV2 = true
    ∧ demoDeps.Unmarshal [7, 7] = none
    ∧ constructed ((demoAuthorizer true).Handle demoDeps ⟨(), [7, 7]⟩) = []
    ∧ ((constructed ((demoAuthorizer true).Handle demoDeps ⟨(), [7, 7]⟩)).filter
        Matcher.isCommand).length ≠ 1
    ∧ ¬ (Matcher.CommandBasedAuthorizerV2
          ∈ constructed ((demoAuthorizer true).Handle demoDeps ⟨(), [7, 7]⟩)
        ↔ (demoAuthorizer true).enableCmdV2 = true) := by
  decide

/-- C7, amended: for a request whose body decodes, `Handle` consults exactly
one command matcher generation, the one the flag selects: the second if and
only if `enableCmdV2` is true, the first if and only if it is false, never
both; when that generation declines, the matchers constructed are that
generation and then the session matcher. -/
theorem Handle_one_generation (a : Authorizer L S C) (d : Deps L X B A S C Out)
    (request : Request X B) (body : A)
    (hdec : d.Unmarshal request.Body = some body) :
    (constructed (a.Handle d request)).filter Matcher.isCommand = [a.commandMatcher]
    ∧ (Matcher.CommandBasedAuthorizerV2 ∈ constructed (a.Handle d request)
        ↔ a.enableCmdV2 = true)
    ∧ (Matcher.CommandBasedAuthorizer ∈ constructed (a.Handle d request)
        ↔ a.enableCmdV2 = false)
    ∧ ¬ (Matcher.CommandBasedAuthorizer ∈ constructed (a.Handle d request)
        ∧ Matcher.CommandBasedAuthorizerV2 ∈ constructed (a.Handle d request))
    ∧ (d.construct a.commandMatcher request.Context a.loggerProvider body a.user = none →
        constructed (a.Handle d request)
          = [a.commandMatcher, Matcher.SessionBasedAuthorizer]) := by
  have key : constructed (a.Handle d request) = [a.commandMatcher]
      ∨ constructed (a.Handle d request)
          = [a.commandMatcher, Matcher.SessionBasedAuthorizer] := by
    cases hcmd : d.construct a.commandMatcher request.Context a.loggerProvider body a.user with
    | some authorizer =>
      left; rw [Handle_run_command a d request body authorizer hdec hcmd]; simp [constructed]
    | none =>
      right
      cases hsess :
          d.NewSessionBasedAuthorizer request.Context a.loggerProvider body a.user with
      | some authorizer =>
        rw [Handle_run_session a d request body authorizer hdec hcmd hsess]
        simp [constructed]
      | none =>
        rw [Handle_run_unclaimed a d request body hdec hcmd hsess]; simp [constructed]
  have last : d.construct a.commandMatcher request.Context a.loggerProvider body a.user = none →
      constructed (a.Handle d request)
        = [a.commandMatcher, Matcher.SessionBasedAuthorizer] := by
    intro hcmd
    cases hsess :
        d.NewSessionBasedAuthorizer request.Context a.loggerProvider body a.user with
    | some authorizer =>
      rw [Handle_run_session a d request body authorizer hdec hcmd hsess]
      simp [constructed]
    | none =>
      rw [Handle_run_unclaimed a d request body hdec hcmd hsess]; simp [constructed]
  refine ⟨?_, ?_, ?_, ?_, last⟩ <;>
    rcases key with h | h <;> rw [h] <;>
    cases hflag : a.enableCmdV2 <;>
    simp [Authorizer.commandMatcher, hflag, Matcher.isCommand]

/-- A run of `Handle_one_generation`: with the flag unset the byte 2 is
offered to the first generation and then to the session matcher. -/
theorem Handle_one_generation_witness :
    demoDeps.Unmarshal [2] = some 2
    ∧ constructed ((demoAuthorizer false).Handle demoDeps ⟨(), [2]⟩)
        = [.CommandBasedAuthorizer, .SessionBasedAuthorizer] :=
  ⟨rfl, (Handle_one_generation (demoAuthorizer false) demoDeps ⟨(), [2]⟩ 2 rfl).2.2.2.2 rfl⟩

/-- C8: in every run of `Handle` exactly one of the four sources (decode
error reply, command matcher, session matcher, "not authorized" reply)
produces the verdict; `Handle` delegates to at most one matcher and issues a
reply of its own, a single one, exactly when it delegates to none; when the
matcher delegated to sends one reply, one reply is sent in the run. -/
theorem Handle_single_source (a : Authorizer L S C) (d : Deps L X B A S C Out)
    (request : Request X B) :
    (sources (a.Handle d request)).length = 1
    ∧ (delegated (a.Handle d request)).length ≤ 1
    ∧ (replied (a.Handle d request) ≠ [] ↔ delegated (a.Handle d request) = [])
    ∧ (replied (a.Handle d request)).length + (delegated (a.Handle d request)).length = 1
    ∧ (∀ replies : Out → List AuthorReply,
        (∀ p ∈ delegated (a.Handle d request), (replies p.2).length = 1) →
        (repliesSent replies (a.Handle d request)).length = 1) := by
  have hc := commandMatcher_isCommand a
  have hs : Matcher.SessionBasedAuthorizer.isCommand = false := rfl
  rcases Handle_run_cases a d request with h | ⟨out, h⟩ | ⟨out, h⟩ | h <;>
    rw [h] <;>
    simp [sources, occurs, replied, delegated, repliesSent, hc, hs, List.filter_cons]

/-- A run of `Handle_single_source`: the second generation claims the byte
0 and its reply is the only one sent. -/
theorem Handle_single_source_witness :
    (repliesSent id ((demoAuthorizer true).Handle demoDeps ⟨(), [0]⟩)).length = 1 :=
  (Handle_single_source (demoAuthorizer true) demoDeps ⟨(), [0]⟩).2.2.2.2 id (by decide)

end CascadeTheorems

end Stringy
